import Mathlib

/-!
Verification of the TS-CNS smart-card data acquisition pipeline from
read-ts-cns-data.py: a shallow embedding of send_apdu, get_ts_data,
decode_ts_data, hex_to_string and the hex and printable-ascii rendering,
together with theorems settling the specification claims.

The card transport is modelled as an oracle mapping the history of
commands already transmitted and the current command to either a
response triple or a transport fault (a raised exception in the source).
Python byte-string slicing, the int(x, 16) constructor and strict ascii
decoding are reproduced with CPython semantics.
-/

namespace TsCns

/-- Effective slice bound of a Python slice index on a sequence: a
negative index counts from the end, and out-of-range bounds clamp to the
ends of the sequence. -/
def pyBound {α : Type} (l : List α) (i : Int) : Int :=
  if i < 0 then max 0 ((l.length : Int) + i) else min i (l.length : Int)

/-- Python slice x[a:b] on a list for integer bounds with the CPython
clamping rules. -/
def pyslice {α : Type} (l : List α) (a b : Int) : List α :=
  if pyBound l a < pyBound l b then
    (l.drop (pyBound l a).toNat).take (pyBound l b - pyBound l a).toNat
  else []

/-- ASCII whitespace bytes stripped by the Python int constructor on a
byte string. -/
def isPySpaceB (b : Nat) : Bool :=
  b = 32 || b = 9 || b = 10 || b = 11 || b = 12 || b = 13

/-- Numeric value of one ASCII hexadecimal digit byte, if it is one. -/
def hexVal (b : Nat) : Option Nat :=
  if 48 ≤ b ∧ b ≤ 57 then some (b - 48)
  else if 97 ≤ b ∧ b ≤ 102 then some (b - 87)
  else if 65 ≤ b ∧ b ≤ 70 then some (b - 55)
  else none

/-- Run of hexadecimal digits with single underscores permitted between
digits, continuing an accumulated value. -/
def parseHexRest : Nat → List Nat → Option Nat
  | acc, [] => some acc
  | acc, c :: rest =>
    if c = 95 then
      match rest with
      | [] => none
      | c2 :: rest2 =>
        match hexVal c2 with
        | some d => parseHexRest (acc * 16 + d) rest2
        | none => none
    else
      match hexVal c with
      | some d => parseHexRest (acc * 16 + d) rest
      | none => none

/-- Nonempty run of hexadecimal digits with single underscores permitted
between digits. -/
def parseHexDigits : List Nat → Option Nat
  | [] => none
  | c :: rest =>
    match hexVal c with
    | some d => parseHexRest d rest
    | none => none

/-- Optional leading sign of a Python integer literal. -/
def pySign (bs : List Nat) : Int × List Nat :=
  match bs with
  | [] => (1, [])
  | c :: rest =>
    if c = 43 then (1, rest)
    else if c = 45 then (-1, rest)
    else (1, c :: rest)

/-- Optional 0x or 0X prefix of a base-16 Python integer literal, with a
single underscore permitted right after the prefix. -/
def pyHexPrefixDrop (bs : List Nat) : List Nat :=
  match bs with
  | c0 :: c1 :: rest =>
    if c0 = 48 ∧ (c1 = 120 ∨ c1 = 88) then
      match rest with
      | c2 :: r2 => if c2 = 95 then r2 else rest
      | [] => []
    else bs
  | _ => bs

/-- Surrounding ASCII whitespace stripped by the Python int constructor. -/
def pyStrip (bs : List Nat) : List Nat :=
  ((bs.dropWhile isPySpaceB).reverse.dropWhile isPySpaceB).reverse

/-- Python int(x, 16) on a byte string: optional surrounding ASCII
whitespace, an optional sign, an optional 0x prefix, then hexadecimal
digits with single underscores between digits. Returns none exactly when
CPython raises ValueError. -/
def pyIntHex (bs : List Nat) : Option Int :=
  (parseHexDigits (pyHexPrefixDrop (pySign (pyStrip bs)).2)).map
    (fun (v : Nat) => (pySign (pyStrip bs)).1 * (v : Int))

/-- Python bytes.decode in strict ascii mode: succeeds exactly when every
byte is below 128, yielding the corresponding characters. -/
def pyDecodeAscii (bs : List Nat) : Option String :=
  if bs.all (fun b => decide (b < 128)) then
    some (String.mk (bs.map (fun b => Char.ofNat b)))
  else none

/-- Python string slice s[a:b] for nonnegative bounds. -/
def strslice (s : String) (a b : Nat) : String :=
  String.mk ((s.data.drop a).take (b - a))

/-- Date reformatting from the source, the f-string
data[0:2]/data[2:4]/data[4:8] applied to the decoded field text. -/
def pyDateFormat (s : String) : String :=
  strslice s 0 2 ++ "/" ++ strslice s 2 4 ++ "/" ++ strslice s 4 8

/-- Whether a field of decode_ts_data is stored as-is or reformatted as a
date. -/
inductive FieldKind : Type
  | plain : FieldKind
  | date : FieldKind
deriving DecidableEq

/-- Stored value of one field: the decoded text as-is for a plain field,
the f-string date rearrangement for a date field. -/
def storeField (k : FieldKind) (text : String) : String :=
  match k with
  | .plain => text
  | .date => pyDateFormat text

/-- One field block of decode_ts_data: parse the two-byte length prefix at
the cursor, advance by two, read that many value bytes when the length is
positive, and advance the cursor by the declared length. Returns none when
the Python block raises (bad length literal or non-ascii value bytes),
otherwise the optional stored value and the new cursor. -/
def decodeField (data : List Nat) (k : FieldKind) (pos : Int) :
    Option (Option String × Int) :=
  match pyIntHex (pyslice data pos (pos + 2)) with
  | none => none
  | some fieldLen =>
    if 0 < fieldLen then
      match pyDecodeAscii (pyslice data (pos + 2) (pos + 2 + fieldLen)) with
      | none => none
      | some text => some (some (storeField k text), pos + 2 + fieldLen)
    else some (none, pos + 2 + fieldLen)

/-- Sequence of field blocks of decode_ts_data, accumulating the stored
key-value pairs in insertion order. -/
def decodeFields (data : List Nat) :
    List (String × FieldKind) → Int → List (String × String) →
    Option (List (String × String) × Int)
  | [], pos, acc => some (acc, pos)
  | (nm, k) :: rest, pos, acc =>
    match decodeField data k pos with
    | none => none
    | some (none, p2) => decodeFields data rest p2 acc
    | some (some v, p2) => decodeFields data rest p2 (acc ++ [(nm, v)])

/-- The eleven fields of decode_ts_data in source order, with the three
date fields marked. -/
def tsFields : List (String × FieldKind) :=
  [("emettitore", .plain), ("data_emissione", .date), ("data_scadenza", .date),
   ("cognome", .plain), ("nome", .plain), ("data_nascita", .date),
   ("sesso", .plain), ("statura", .plain), ("codice_fiscale", .plain),
   ("cittadinanza", .plain), ("comune_nascita", .plain)]

/-- decode_ts_data from the source: skip the six header bytes, walk the
eleven length-prefixed fields, and return the accumulated mapping; any
exception inside the walk is caught and turned into the null result. -/
def decode_ts_data (raw : List Nat) : Option (List (String × String)) :=
  (decodeFields raw tsFields 6 []).map Prod.fst

/-- Rendering of one byte in the ascii dump: its character when printable,
otherwise a dot. -/
def printableChar (b : Nat) : Char :=
  if 32 ≤ b ∧ b ≤ 126 then Char.ofNat b else '.'

/-- Printable-ascii rendering of a byte sequence, as in dump_raw_data. -/
def to_printable_ascii (bs : List Nat) : String :=
  String.mk (bs.map printableChar)

/-- Uppercase hexadecimal digit character for a value below sixteen. -/
def hexDigitChar (n : Nat) : Char :=
  if n < 10 then Char.ofNat (48 + n) else Char.ofNat (55 + n)

/-- Two-uppercase-hex-digit rendering of one byte, the Python format
specifier 02X applied to a byte value. -/
def byteHex (b : Nat) : List Char :=
  [hexDigitChar (b / 16), hexDigitChar (b % 16)]

/-- Hex rendering of a byte sequence as built in get_ts_data. -/
def hex_data_of (bs : List Nat) : String :=
  String.mk ((bs.map byteHex).flatten)

/-- Loop body of hex_to_string: consume two characters at a time, parse
them as a base-16 literal, and append the character when printable or a
dot otherwise; a trailing odd character is skipped. Returns none when the
parse raises. -/
def hex_to_string_go : List Char → Option (List Char)
  | [] => some []
  | [_] => some []
  | c1 :: c2 :: rest =>
    match pyIntHex [c1.toNat, c2.toNat] with
    | none => none
    | some code =>
      let ch : Char :=
        if 32 ≤ code ∧ code ≤ 126 then Char.ofNat code.toNat else '.'
      (hex_to_string_go rest).map (fun t => ch :: t)

/-- hex_to_string from the source, on the character sequence of the hex
text; whitespace handling of the underlying int parse is restricted to
ASCII, which is exact on the hex digits produced by the pipeline. -/
def hex_to_string (s : String) : Option String :=
  (hex_to_string_go s.data).map String.mk

/-- Response triple of one APDU exchange. -/
structure Resp where
  payload : List Nat
  sw1 : Nat
  sw2 : Nat
deriving DecidableEq

/-- Result of one transport transmit: a response triple, or a raised
transport-level exception. -/
inductive TransportResult : Type
  | ok : List Nat → Nat → Nat → TransportResult
  | fault : TransportResult
deriving DecidableEq

/-- An APDU command byte sequence. -/
abbrev Cmd := List Nat

/-- Deterministic card transport: the response is a function of the
history of commands already transmitted and the current command. -/
abbrev Oracle := List Cmd → Cmd → TransportResult

/-- Log of transmitted commands with the responses the caller observed. -/
abbrev Trace := List (Cmd × Resp)

/-- Response observed by send_apdu for one transmit outcome: the triple on
success, and the sentinel of empty payload and zero status bytes when the
transport raised. -/
def respOf : TransportResult → Resp
  | .ok p s1 s2 => ⟨p, s1, s2⟩
  | .fault => ⟨[], 0, 0⟩

/-- send_apdu from the source: transmit the command, and on a transport
exception swallow it and return the sentinel response; the attempted
transmit is appended to the trace either way. -/
def send_apdu (oracle : Oracle) (tr : Trace) (apdu : Cmd) : Resp × Trace :=
  let r := respOf (oracle (tr.map Prod.fst) apdu)
  (r, tr ++ [(apdu, r)])

/-- SELECT Master File command bytes. -/
def SELECT_MF : Cmd := [0x00, 0xA4, 0x00, 0x00, 0x02, 0x3F, 0x00]

/-- SELECT Dedicated File command bytes. -/
def SELECT_DF1 : Cmd := [0x00, 0xA4, 0x00, 0x00, 0x02, 0x11, 0x00]

/-- SELECT Elementary File command bytes. -/
def SELECT_EF_PERS : Cmd := [0x00, 0xA4, 0x00, 0x00, 0x02, 0x11, 0x02]

/-- Initial READ BINARY command bytes. -/
def READ_BIN : Cmd := [0x00, 0xB0, 0x00, 0x00, 0x00]

/-- Result record built by get_ts_data on a successful read. -/
structure TsData where
  raw_data : List Nat
  hex_data : String
  string_data : Option String
  decoded_data : Option (List (String × String))

/-- get_ts_data from the source, instrumented with the trace of attempted
transmits: three SELECT steps each aborting on a non-success status word,
the initial READ BINARY, a corrected-length retry when the status is 6C,
a further fixed-length retry when the current status is then 67 00, a
final success check, and construction of the result record. -/
def get_ts_data (oracle : Oracle) : Option TsData × Trace :=
  let p1 := send_apdu oracle [] SELECT_MF
  if p1.1.sw1 ≠ 0x90 ∨ p1.1.sw2 ≠ 0x00 then (none, p1.2)
  else
    let p2 := send_apdu oracle p1.2 SELECT_DF1
    if p2.1.sw1 ≠ 0x90 ∨ p2.1.sw2 ≠ 0x00 then (none, p2.2)
    else
      let p3 := send_apdu oracle p2.2 SELECT_EF_PERS
      if p3.1.sw1 ≠ 0x90 ∨ p3.1.sw2 ≠ 0x00 then (none, p3.2)
      else
        let p4 := send_apdu oracle p3.2 READ_BIN
        let p5 :=
          if p4.1.sw1 = 0x6C then
            send_apdu oracle p4.2 [0x00, 0xB0, 0x00, 0x00, p4.1.sw2]
          else p4
        let p6 :=
          if p5.1.sw1 = 0x67 ∧ p5.1.sw2 = 0x00 then
            send_apdu oracle p5.2 [0x00, 0xB0, 0x00, 0x00, 0xFF]
          else p5
        if p6.1.sw1 ≠ 0x90 ∨ p6.1.sw2 ≠ 0x00 then (none, p6.2)
        else
          (some { raw_data := p6.1.payload
                , hex_data := hex_data_of p6.1.payload
                , string_data := hex_to_string (hex_data_of p6.1.payload)
                , decoded_data := decode_ts_data p6.1.payload }, p6.2)

/-- Byte sequence of an ASCII text, for building concrete raw records. -/
def asciiBytes (s : String) : List Nat := s.data.map Char.toNat

/-- Concrete well-formed raw record: six header bytes, then the eleven
length-prefixed fields, with a zero declared length for statura and
cittadinanza. -/
def c7rec : List Nat :=
  [0, 0, 0, 0, 0, 0] ++ asciiBytes "06MININT" ++ asciiBytes "0801012030" ++
  asciiBytes "0801012035" ++ asciiBytes "04ROSS" ++ asciiBytes "04MARI" ++
  asciiBytes "0801011990" ++ asciiBytes "01F" ++ asciiBytes "00" ++
  asciiBytes "02AB" ++ asciiBytes "00" ++ asciiBytes "04ROMA"

/-- Expected decoded mapping for c7rec: the two zero-length fields are
absent. -/
def c7expected : List (String × String) :=
  [("emettitore", "MININT"), ("data_emissione", "01/01/2030"),
   ("data_scadenza", "01/01/2035"), ("cognome", "ROSS"), ("nome", "MARI"),
   ("data_nascita", "01/01/1990"), ("sesso", "F"), ("codice_fiscale", "AB"),
   ("comune_nascita", "ROMA")]

/-- Concrete raw record whose last field, comune_nascita, declares length
five but is followed by only two bytes. -/
def c2cex : List Nat :=
  [0, 0, 0, 0, 0, 0] ++ (List.replicate 10 (asciiBytes "00")).flatten ++
  asciiBytes "05AB"

/-- Concrete raw record whose date field data_emissione declares length
four and carries the four characters 0101. -/
def c3cex : List Nat :=
  [0, 0, 0, 0, 0, 0] ++ asciiBytes "00" ++ asciiBytes "040101" ++
  (List.replicate 9 (asciiBytes "00")).flatten

/-- Concrete raw record whose first length prefix is a space followed by
the digit five, which is not a pair of hexadecimal digits. -/
def c10cex : List Nat :=
  [0, 0, 0, 0, 0, 0] ++ asciiBytes " 5HELLO" ++
  (List.replicate 10 (asciiBytes "00")).flatten

/-- Transport whose three SELECT steps succeed, whose initial READ BINARY
returns status 6C 10, and whose corrected-length retry returns status
67 00; every later command succeeds. -/
def c1oracle : Oracle := fun hist _ =>
  if hist.length = 3 then .ok [] 0x6C 0x10
  else if hist.length = 4 then .ok [] 0x67 0x00
  else .ok [0x41] 0x90 0x00

/-- Transport that raises on every transmit. -/
def oracleFault : Oracle := fun _ _ => .fault

/-- Transport that answers every command with status 6A 82. -/
def oracleMFfail : Oracle := fun _ _ => .ok [] 0x6A 0x82

/-- Transport whose selects succeed and that raises on the READ BINARY. -/
def oracleReadFault : Oracle := fun hist _ =>
  if hist.length ≤ 2 then .ok [] 0x90 0x00 else .fault

/-- Fallback READ BINARY command with the fixed maximum length. -/
def READ_BIN_FF : Cmd := [0x00, 0xB0, 0x00, 0x00, 0xFF]

/-- Response observed for the SELECT Master File step. -/
def mfResp (o : Oracle) : Resp := respOf (o [] SELECT_MF)

/-- Response observed for the SELECT Dedicated File step. -/
def dfResp (o : Oracle) : Resp := respOf (o [SELECT_MF] SELECT_DF1)

/-- Response observed for the SELECT Elementary File step. -/
def efResp (o : Oracle) : Resp :=
  respOf (o [SELECT_MF, SELECT_DF1] SELECT_EF_PERS)

/-- Response observed for the initial READ BINARY step. -/
def rbResp (o : Oracle) : Resp :=
  respOf (o [SELECT_MF, SELECT_DF1, SELECT_EF_PERS] READ_BIN)

/-- Corrected-length READ BINARY command built from the initial read
status. -/
def rb6CCmd (o : Oracle) : Cmd := [0x00, 0xB0, 0x00, 0x00, (rbResp o).sw2]

/-- Response observed for the corrected-length retry. -/
def rb6CResp (o : Oracle) : Resp :=
  respOf (o [SELECT_MF, SELECT_DF1, SELECT_EF_PERS, READ_BIN] (rb6CCmd o))

/-- Response observed for a fallback retry issued as the fifth command. -/
def rbFF4Resp (o : Oracle) : Resp :=
  respOf (o [SELECT_MF, SELECT_DF1, SELECT_EF_PERS, READ_BIN] READ_BIN_FF)

/-- Response observed for a fallback retry issued as the sixth command. -/
def rbFF5Resp (o : Oracle) : Resp :=
  respOf (o [SELECT_MF, SELECT_DF1, SELECT_EF_PERS, READ_BIN, rb6CCmd o]
    READ_BIN_FF)

/-- Final success check and result construction of get_ts_data applied to
the response of the last READ BINARY attempt. -/
def readResult (r : Resp) : Option TsData :=
  if r.sw1 ≠ 0x90 ∨ r.sw2 ≠ 0x00 then none
  else
    some { raw_data := r.payload
         , hex_data := hex_data_of r.payload
         , string_data := hex_to_string (hex_data_of r.payload)
         , decoded_data := decode_ts_data r.payload }

/-! Supporting lemmas about the Python slice and int embeddings. -/

lemma pyBound_nonneg {α : Type} (l : List α) (i : Int) : 0 ≤ pyBound l i := by
  unfold pyBound
  have h0 : (0 : Int) ≤ (l.length : Int) := Int.natCast_nonneg _
  split <;> omega

lemma pyBound_le_len {α : Type} (l : List α) (i : Int) :
    pyBound l i ≤ (l.length : Int) := by
  unfold pyBound
  have h0 : (0 : Int) ≤ (l.length : Int) := Int.natCast_nonneg _
  split <;> omega

lemma pyBound_of_len_le {α : Type} {l : List α} {i : Int}
    (h : (l.length : Int) ≤ i) : pyBound l i = (l.length : Int) := by
  unfold pyBound
  have h0 : (0 : Int) ≤ (l.length : Int) := Int.natCast_nonneg _
  split <;> omega

lemma pyBound_of_nonneg_le {α : Type} {l : List α} {i : Int}
    (h0 : 0 ≤ i) (h : i ≤ (l.length : Int)) : pyBound l i = i := by
  unfold pyBound
  split <;> omega

/-- A slice starting at or beyond the end of the sequence is empty. -/
lemma pyslice_of_len_le {α : Type} {l : List α} {a : Int} (b : Int)
    (h : (l.length : Int) ≤ a) : pyslice l a b = [] := by
  unfold pyslice
  rw [pyBound_of_len_le h]
  rw [if_neg]
  have := pyBound_le_len l b
  omega

/-- For nonnegative bounds a Python slice is a drop followed by a take. -/
lemma pyslice_nonneg {α : Type} (l : List α) {a b : Int}
    (ha : 0 ≤ a) (hb : 0 ≤ b) :
    pyslice l a b = (l.drop a.toNat).take (b.toNat - a.toNat) := by
  unfold pyslice
  have h0 : (0 : Int) ≤ (l.length : Int) := Int.natCast_nonneg _
  have hdl : (l.drop a.toNat).length = l.length - a.toNat :=
    List.length_drop _ _
  by_cases hal : a ≤ (l.length : Int)
  · rw [pyBound_of_nonneg_le ha hal]
    by_cases hbl : b ≤ (l.length : Int)
    · rw [pyBound_of_nonneg_le hb hbl]
      split
      · have he : (b - a).toNat = b.toNat - a.toNat := by omega
        rw [he]
      · rename_i hlt
        have he : b.toNat - a.toNat = 0 := by omega
        rw [he, List.take_zero]
    · rw [pyBound_of_len_le (by omega)]
      split
      · rw [List.take_of_length_le (by omega), List.take_of_length_le (by omega)]
      · rename_i hlt
        have hd : l.drop a.toNat = [] := List.drop_eq_nil_of_le (by omega)
        rw [hd, List.take_nil]
  · rw [pyBound_of_len_le (by omega)]
    have hd : l.drop a.toNat = [] := List.drop_eq_nil_of_le (by omega)
    rw [hd, List.take_nil]
    split
    · have := pyBound_le_len l b
      omega
    · rfl

/-- Dropping past a left append segment lands inside the right segment. -/
lemma drop_append_ge {α : Type} :
    ∀ (h rest : List α) (m : Nat), h.length ≤ m →
      (h ++ rest).drop m = rest.drop (m - h.length)
  | [], rest, m, _ => by simp
  | a :: t, rest, m, hm => by
    match m, hm with
    | m + 1, hm =>
      simp only [List.cons_append, List.drop_succ_cons, List.length_cons]
      rw [drop_append_ge t rest m (by simpa using hm)]
      congr 1
      omega

/-- A slice taken at or beyond a fixed-length left segment does not depend
on the content of that segment. -/
lemma pyslice_append_congr {α : Type} {h1 h2 rest : List α} {a b : Int}
    (hlen : h1.length = h2.length) (ha : (h1.length : Int) ≤ a) (hb : 0 ≤ b) :
    pyslice (h1 ++ rest) a b = pyslice (h2 ++ rest) a b := by
  have ha0 : 0 ≤ a := le_trans (Int.natCast_nonneg _) ha
  rw [pyslice_nonneg _ ha0 hb, pyslice_nonneg _ ha0 hb]
  rw [drop_append_ge h1 rest a.toNat (by omega),
      drop_append_ge h2 rest a.toNat (by omega), hlen]

lemma pyIntHex_nil : pyIntHex [] = none := rfl

/-- Characterisation of a successful hexadecimal digit lookup. -/
lemma hexVal_cases {b v : Nat} (h : hexVal b = some v) :
    (48 ≤ b ∧ b ≤ 57 ∧ v = b - 48) ∨ (97 ≤ b ∧ b ≤ 102 ∧ v = b - 87) ∨
    (65 ≤ b ∧ b ≤ 70 ∧ v = b - 55) := by
  unfold hexVal at h
  split at h
  · rename_i hc
    have h2 := Option.some.inj h
    exact Or.inl ⟨hc.1, hc.2, h2.symm⟩
  · split at h
    · rename_i hc
      have h2 := Option.some.inj h
      exact Or.inr (Or.inl ⟨hc.1, hc.2, h2.symm⟩)
    · split at h
      · rename_i hc
        have h2 := Option.some.inj h
        exact Or.inr (Or.inr ⟨hc.1, hc.2, h2.symm⟩)
      · exact absurd h (by simp)

lemma hexVal_lt {b v : Nat} (h : hexVal b = some v) : v < 16 := by
  rcases hexVal_cases h with ⟨_, _, _⟩ | ⟨_, _, _⟩ | ⟨_, _, _⟩ <;> omega

lemma hexVal_not_space {b v : Nat} (h : hexVal b = some v) :
    isPySpaceB b = false := by
  rcases hexVal_cases h with ⟨h1, h2, _⟩ | ⟨h1, h2, _⟩ | ⟨h1, h2, _⟩ <;>
    simp [isPySpaceB] <;> omega

lemma hexVal_ne {b v : Nat} (h : hexVal b = some v) :
    b ≠ 43 ∧ b ≠ 45 ∧ b ≠ 95 ∧ b ≠ 120 ∧ b ≠ 88 := by
  rcases hexVal_cases h with ⟨h1, h2, _⟩ | ⟨h1, h2, _⟩ | ⟨h1, h2, _⟩ <;>
    refine ⟨by omega, by omega, by omega, by omega, by omega⟩

lemma pySign_cons (c : Nat) (rest : List Nat) :
    pySign (c :: rest) =
      if c = 43 then (1, rest)
      else if c = 45 then (-1, rest) else (1, c :: rest) := rfl

lemma pyHexPrefixDrop_two (c0 c1 : Nat) :
    pyHexPrefixDrop [c0, c1] =
      if c0 = 48 ∧ (c1 = 120 ∨ c1 = 88) then [] else [c0, c1] := rfl

lemma parseHexDigits_cons (c : Nat) (rest : List Nat) :
    parseHexDigits (c :: rest) =
      match hexVal c with
      | some d => parseHexRest d rest
      | none => none := rfl

lemma parseHexRest_nil (acc : Nat) : parseHexRest acc [] = some acc := rfl

/-- Stripping whitespace from a two-byte sequence of hexadecimal digits
changes nothing. -/
lemma pyStrip_two_digits {a b x y : Nat} (ha : hexVal a = some x)
    (hb : hexVal b = some y) : pyStrip [a, b] = [a, b] := by
  unfold pyStrip
  rw [List.dropWhile_cons_of_neg (by simp [hexVal_not_space ha])]
  have hr : ([a, b] : List Nat).reverse = [b, a] := by simp
  rw [hr, List.dropWhile_cons_of_neg (by simp [hexVal_not_space hb])]
  simp

/-- The Python base-16 parse of exactly two hexadecimal digit bytes. -/
lemma pyIntHex_two_digits {a b x y : Nat} (ha : hexVal a = some x)
    (hb : hexVal b = some y) :
    pyIntHex [a, b] = some ((16 * x + y : Nat) : Int) := by
  obtain ⟨ha43, ha45, _, _, _⟩ := hexVal_ne ha
  obtain ⟨_, _, hb95, hb120, hb88⟩ := hexVal_ne hb
  unfold pyIntHex
  rw [pyStrip_two_digits ha hb, pySign_cons, if_neg ha43, if_neg ha45]
  simp only
  rw [pyHexPrefixDrop_two, if_neg (by simp [hb120, hb88]),
    parseHexDigits_cons, ha]
  show (parseHexRest x [b]).map _ = _
  unfold parseHexRest
  rw [if_neg hb95, hb]
  simp [parseHexRest_nil]
  ring

/-! Supporting lemmas about the field decoder. -/

lemma decodeField_parse_none {data : List Nat} {pos : Int} (k : FieldKind)
    (hp : pyIntHex (pyslice data pos (pos + 2)) = none) :
    decodeField data k pos = none := by
  unfold decodeField
  rw [hp]

lemma decodeField_nonpos {data : List Nat} {pos : Int} {L : Int}
    (k : FieldKind) (hp : pyIntHex (pyslice data pos (pos + 2)) = some L)
    (hL : ¬ 0 < L) : decodeField data k pos = some (none, pos + 2 + L) := by
  unfold decodeField
  rw [hp]
  dsimp only
  rw [if_neg hL]

lemma decodeField_ascii_some {data : List Nat} {pos : Int} {L : Int}
    {text : String} (k : FieldKind)
    (hp : pyIntHex (pyslice data pos (pos + 2)) = some L) (hL : 0 < L)
    (hd : pyDecodeAscii (pyslice data (pos + 2) (pos + 2 + L)) = some text) :
    decodeField data k pos = some (some (storeField k text), pos + 2 + L) := by
  unfold decodeField
  rw [hp]
  dsimp only
  rw [if_pos hL, hd]

lemma decodeField_ascii_none {data : List Nat} {pos : Int} {L : Int}
    (k : FieldKind)
    (hp : pyIntHex (pyslice data pos (pos + 2)) = some L) (hL : 0 < L)
    (hd : pyDecodeAscii (pyslice data (pos + 2) (pos + 2 + L)) = none) :
    decodeField data k pos = none := by
  unfold decodeField
  rw [hp]
  dsimp only
  rw [if_pos hL, hd]

/-- Every successful field block advances the cursor by two plus the
parsed declared length. -/
lemma decodeField_some_inv {data : List Nat} {k : FieldKind} {pos p2 : Int}
    {res : Option String} (h : decodeField data k pos = some (res, p2)) :
    ∃ L, pyIntHex (pyslice data pos (pos + 2)) = some L ∧ p2 = pos + 2 + L := by
  unfold decodeField at h
  split at h
  · exact absurd h (by simp)
  · rename_i L hp
    refine ⟨L, hp, ?_⟩
    split at h
    · split at h
      · exact absurd h (by simp)
      · exact (congrArg Prod.snd (Option.some.inj h)).symm
    · exact (congrArg Prod.snd (Option.some.inj h)).symm

lemma decodeFields_nil (data : List Nat) (pos : Int)
    (acc : List (String × String)) :
    decodeFields data [] pos acc = some (acc, pos) := rfl

lemma decodeFields_cons (data : List Nat) (nm : String) (k : FieldKind)
    (rest : List (String × FieldKind)) (pos : Int)
    (acc : List (String × String)) :
    decodeFields data ((nm, k) :: rest) pos acc =
      match decodeField data k pos with
      | none => none
      | some (none, p2) => decodeFields data rest p2 acc
      | some (some v, p2) => decodeFields data rest p2 (acc ++ [(nm, v)]) := rfl

/-- Every pair in the output of the field walk comes from the accumulator
or bears the name of one of the remaining fields. -/
lemma decodeFields_out_mem :
    ∀ (flds : List (String × FieldKind)) (data : List Nat) (pos : Int)
      (acc out : List (String × String)) (pf : Int),
      decodeFields data flds pos acc = some (out, pf) →
      ∀ q ∈ out, q ∈ acc ∨ q.1 ∈ flds.map Prod.fst := by
  intro flds
  induction flds with
  | nil =>
    intro data pos acc out pf h q hq
    rw [decodeFields_nil] at h
    obtain ⟨he1, he2⟩ := Prod.mk.inj (Option.some.inj h)
    rw [← he1] at hq
    exact Or.inl hq
  | cons hd rest ih =>
    intro data pos acc out pf h q hq
    obtain ⟨nm, k⟩ := hd
    rw [decodeFields_cons] at h
    split at h
    · exact absurd h (by simp)
    · rcases ih data _ acc out pf h q hq with hin | hin
      · exact Or.inl hin
      · exact Or.inr (by simpa using Or.inr hin)
    · rename_i v p2 hf
      rcases ih data _ _ out pf h q hq with hin | hin
      · rcases List.mem_append.mp hin with hin2 | hin2
        · exact Or.inl hin2
        · have : q = (nm, v) := by simpa using hin2
          exact Or.inr (by simp [this])
      · exact Or.inr (by simpa using Or.inr hin)

/-! Claim theorems about the field decoder. -/

/-- C2 (amended): for every raw record in which a field other than the
last one declares a length whose value read would extend past the end of
the record, the decoder fails for the record as a whole; the guarantee
does not extend to the last field, whose value the source silently
truncates (see the counterexample for the claim as stated). -/
theorem C2_overrun_nonlast_fails :
    ∀ (data : List Nat) (nm : String) (k : FieldKind)
      (rest : List (String × FieldKind)) (pos : Int)
      (acc : List (String × String)) (L : Int),
      pyIntHex (pyslice data pos (pos + 2)) = some L → 0 < L →
      (data.length : Int) < pos + 2 + L → rest ≠ [] →
      decodeFields data ((nm, k) :: rest) pos acc = none := by
  intro data nm k rest pos acc L hp hL hover hrest
  rw [decodeFields_cons]
  rcases hd : pyDecodeAscii (pyslice data (pos + 2) (pos + 2 + L)) with _ | text
  · rw [decodeField_ascii_none k hp hL hd]
  · rw [decodeField_ascii_some k hp hL hd]
    dsimp only
    cases rest with
    | nil => exact absurd rfl hrest
    | cons hd2 rest2 =>
      obtain ⟨nm2, k2⟩ := hd2
      rw [decodeFields_cons]
      have hnone :
          pyIntHex (pyslice data (pos + 2 + L) (pos + 2 + L + 2)) = none := by
        rw [pyslice_of_len_le _ (le_of_lt hover)]
        exact pyIntHex_nil
      rw [decodeField_parse_none k2 hnone]

/-- C2 counterexample to the claim as stated: in this record the last
field, comune_nascita, declares length five at cursor 26 while only two
value bytes remain, yet the decoder returns a record whose
comune_nascita value is the truncated text, not a decode error. -/
theorem C2_counterexample :
    c2cex.length = 30 ∧ pyIntHex (pyslice c2cex 26 28) = some 5 ∧
    decode_ts_data c2cex = some [("comune_nascita", "AB")] :=
  ⟨by decide, by decide, by decide⟩

/-- C2 witness: the amended theorem applied to a record whose first field
declares length five with one value byte available. -/
theorem C2_witness :
    decodeFields ([0, 0, 0, 0, 0, 0] ++ asciiBytes "05A")
      [("emettitore", FieldKind.plain), ("data_emissione", FieldKind.date)]
      6 [] = none :=
  C2_overrun_nonlast_fails ([0, 0, 0, 0, 0, 0] ++ asciiBytes "05A")
    "emettitore" .plain [("data_emissione", FieldKind.date)] 6 [] 5
    (by decide) (by decide) (by decide) (by decide)

/-- C3 (amended): a date field with positive declared length is stored as
the f-string slicing text[0:2]/text[2:4]/text[4:8] of the decoded text
without any length check; when the text has exactly eight characters the
stored value is the DD/MM/YYYY rearrangement. -/
theorem C3_date_slice_format :
    (∀ (data : List Nat) (pos L : Int) (text : String),
      pyIntHex (pyslice data pos (pos + 2)) = some L → 0 < L →
      pyDecodeAscii (pyslice data (pos + 2) (pos + 2 + L)) = some text →
      decodeField data .date pos =
        some (some (pyDateFormat text), pos + 2 + L)) ∧
    (∀ c1 c2 c3 c4 c5 c6 c7 c8 : Char,
      pyDateFormat (String.mk [c1, c2, c3, c4, c5, c6, c7, c8]) =
        String.mk [c1, c2, '/', c3, c4, '/', c5, c6, c7, c8]) := by
  constructor
  · intro data pos L text hp hL hd
    exact decodeField_ascii_some .date hp hL hd
  · intro c1 c2 c3 c4 c5 c6 c7 c8
    rfl

/-- C3 counterexample to the claim as stated: a date field whose decoded
text has four characters does not make the decoder fail; the record
decodes with the malformed value 01/01/ for data_emissione. -/
theorem C3_counterexample :
    decode_ts_data c3cex = some [("data_emissione", "01/01/")] := by decide

/-- C3 witness: the amended theorem applied to a well-formed eight
character date field. -/
theorem C3_witness :
    decodeField ([0, 0, 0, 0, 0, 0] ++ asciiBytes "0801012030") .date 6 =
      some (some (pyDateFormat "01012030"), 6 + 2 + 8) ∧
    pyDateFormat (String.mk ['0', '1', '0', '1', '2', '0', '3', '0']) =
      String.mk ['0', '1', '/', '0', '1', '/', '2', '0', '3', '0'] :=
  ⟨C3_date_slice_format.1 ([0, 0, 0, 0, 0, 0] ++ asciiBytes "0801012030")
      6 8 "01012030" (by decide) (by decide) (by decide),
   C3_date_slice_format.2 '0' '1' '0' '1' '2' '0' '3' '0'⟩

/-- C6: the decoder starts its cursor at offset six, so the first field
block never inspects the six header bytes; and every field block whose
length prefix consists of two hexadecimal digit bytes of value L, when it
completes, moves the cursor forward by exactly 2 + L, with L between 0
and 255. -/
theorem C6_cursor_advance :
    (∀ (h1 h2 rest : List Nat) (k : FieldKind), h1.length = 6 →
      h2.length = 6 →
      decodeField (h1 ++ rest) k 6 = decodeField (h2 ++ rest) k 6) ∧
    (∀ (data : List Nat) (k : FieldKind) (pos p2 : Int) (d1 d2 v1 v2 : Nat)
      (res : Option String),
      pyslice data pos (pos + 2) = [d1, d2] → hexVal d1 = some v1 →
      hexVal d2 = some v2 → decodeField data k pos = some (res, p2) →
      p2 = pos + 2 + ((16 * v1 + v2 : Nat) : Int) ∧ 16 * v1 + v2 ≤ 255) := by
  constructor
  · intro h1 h2 rest k hl1 hl2
    have hlen : h1.length = h2.length := hl1.trans hl2.symm
    have e1 : pyslice (h1 ++ rest) 6 (6 + 2) = pyslice (h2 ++ rest) 6 (6 + 2) :=
      pyslice_append_congr hlen (by rw [hl1]; norm_num) (by norm_num)
    unfold decodeField
    rw [e1]
    rcases hp : pyIntHex (pyslice (h2 ++ rest) 6 (6 + 2)) with _ | L
    · rfl
    · dsimp only
      by_cases hL : 0 < L
      · simp only [if_pos hL]
        have e2 : pyslice (h1 ++ rest) (6 + 2) (6 + 2 + L) =
            pyslice (h2 ++ rest) (6 + 2) (6 + 2 + L) :=
          pyslice_append_congr hlen (by rw [hl1]; norm_num) (by omega)
        rw [e2]
      · simp only [if_neg hL]
  · intro data k pos p2 d1 d2 v1 v2 res hsl h1 h2 hf
    obtain ⟨L, hp, hpos⟩ := decodeField_some_inv hf
    rw [hsl, pyIntHex_two_digits h1 h2] at hp
    have hLv : L = ((16 * v1 + v2 : Nat) : Int) := (Option.some.inj hp).symm
    have hv1 := hexVal_lt h1
    have hv2 := hexVal_lt h2
    constructor
    · rw [hpos, hLv]
    · omega

/-- C6 witness: the theorem applied to two records differing only in the
header, and to a concrete field block with length prefix 01. -/
theorem C6_witness :
    decodeField ([0, 0, 0, 0, 0, 0] ++ asciiBytes "01A") .plain 6 =
      decodeField ([1, 2, 3, 4, 5, 6] ++ asciiBytes "01A") .plain 6 ∧
    ((9 : Int) = 6 + 2 + ((16 * 0 + 1 : Nat) : Int) ∧ 16 * 0 + 1 ≤ 255) :=
  ⟨C6_cursor_advance.1 [0, 0, 0, 0, 0, 0] [1, 2, 3, 4, 5, 6]
      (asciiBytes "01A") .plain (by decide) (by decide),
   C6_cursor_advance.2 ([0, 0, 0, 0, 0, 0] ++ asciiBytes "01A") .plain 6 9
      48 49 0 1 (some "A") (by decide) (by decide) (by decide) (by decide)⟩

/-- C7: a field whose length prefix parses to zero is entirely absent
from any successfully decoded record (given that its name is not already
accumulated and does not recur later, as in the fixed schema); in
particular the concrete record with a 00 prefix at the statura position
decodes to a mapping with no statura key. -/
theorem C7_zero_length_absent :
    (∀ (data : List Nat) (nm : String) (k : FieldKind)
       (post : List (String × FieldKind)) (pos pf : Int)
       (acc out : List (String × String)),
       decodeFields data ((nm, k) :: post) pos acc = some (out, pf) →
       pyIntHex (pyslice data pos (pos + 2)) = some 0 →
       nm ∉ acc.map Prod.fst → nm ∉ post.map Prod.fst →
       nm ∉ out.map Prod.fst) ∧
    (decode_ts_data c7rec = some c7expected ∧
     "statura" ∉ c7expected.map Prod.fst) := by
  constructor
  · intro data nm k post pos pf acc out h hp hacc hpost hmem
    rw [decodeFields_cons, decodeField_nonpos k hp (by omega)] at h
    dsimp only at h
    obtain ⟨q, hq, hq1⟩ := List.mem_map.mp hmem
    rcases decodeFields_out_mem post data _ acc out pf h q hq with hin | hin
    · exact hacc (hq1 ▸ List.mem_map_of_mem Prod.fst hin)
    · exact hpost (hq1 ▸ hin)
  · exact ⟨by decide, by decide⟩

/-- C7 witness: the theorem applied to a record whose statura field has a
00 prefix followed by a length-one codice_fiscale field. -/
theorem C7_witness :
    "statura" ∉
      ([("codice_fiscale", "A")] : List (String × String)).map Prod.fst :=
  C7_zero_length_absent.1 ([0, 0, 0, 0, 0, 0] ++ asciiBytes "0001A")
    "statura" .plain [("codice_fiscale", FieldKind.plain)] 6 11 []
    [("codice_fiscale", "A")] (by decide) (by decide) (by decide) (by decide)

/-- C10 (amended): exceptions inside the field walk always surface as the
null result for the whole record, never as a propagated error: a length
prefix whose slice fails the Python base-16 parse, or a field value that
is not valid ASCII, make the decode of the remaining fields return none;
however a prefix that is not two hexadecimal digits can still be accepted
whenever the Python int constructor accepts it, such as a space followed
by a digit (see the counterexample). -/
theorem C10_exception_null :
    (∀ (data : List Nat) (nm : String) (k : FieldKind)
       (rest : List (String × FieldKind)) (pos : Int)
       (acc : List (String × String)),
       pyIntHex (pyslice data pos (pos + 2)) = none →
       decodeFields data ((nm, k) :: rest) pos acc = none) ∧
    (∀ (data : List Nat) (nm : String) (k : FieldKind)
       (rest : List (String × FieldKind)) (pos : Int)
       (acc : List (String × String)) (L : Int),
       pyIntHex (pyslice data pos (pos + 2)) = some L → 0 < L →
       pyDecodeAscii (pyslice data (pos + 2) (pos + 2 + L)) = none →
       decodeFields data ((nm, k) :: rest) pos acc = none) := by
  constructor
  · intro data nm k rest pos acc hp
    rw [decodeFields_cons, decodeField_parse_none k hp]
  · intro data nm k rest pos acc L hp hL hd
    rw [decodeFields_cons, decodeField_ascii_none k hp hL hd]

/-- C10 counterexample to the claim as stated: the bytes space and digit
five are not two ASCII hexadecimal digits, yet the Python base-16 parse
accepts them, and a record carrying them as a length prefix decodes
successfully instead of yielding the null result. -/
theorem C10_counterexample :
    hexVal 0x20 = none ∧ pyIntHex [0x20, 0x35] = some 5 ∧
    decode_ts_data c10cex = some [("emettitore", "HELLO")] :=
  ⟨by decide, by decide, by decide⟩

/-- C10 witness: the amended theorem applied to an empty record and to a
record with a non-ascii value byte. -/
theorem C10_witness :
    decodeFields ([] : List Nat) [("emettitore", FieldKind.plain)] 6 [] =
      none ∧
    decodeFields [0, 0, 0, 0, 0, 0, 48, 49, 255]
      [("emettitore", FieldKind.plain)] 6 [] = none :=
  ⟨C10_exception_null.1 [] "emettitore" .plain [] 6 [] (by decide),
   C10_exception_null.2 [0, 0, 0, 0, 0, 0, 48, 49, 255] "emettitore" .plain
     [] 6 [] 1 (by decide) (by decide) (by decide)⟩

/-! Supporting lemmas for the hex and printable renderings. -/

lemma hexVal_hexDigitChar : ∀ n, n < 16 →
    hexVal ((hexDigitChar n).toNat) = some n := by decide

lemma hex_to_string_go_cons (c1 c2 : Char) (rest : List Char) :
    hex_to_string_go (c1 :: c2 :: rest) =
      match pyIntHex [c1.toNat, c2.toNat] with
      | none => none
      | some code =>
        (hex_to_string_go rest).map
          (fun t =>
            (if 32 ≤ code ∧ code ≤ 126 then Char.ofNat code.toNat else '.')
              :: t) := rfl

/-- Rendering printable bytes to hex pairs and parsing the pairs back
rebuilds the corresponding characters. -/
lemma hex_go_roundtrip :
    ∀ bs : List Nat, (∀ b ∈ bs, 32 ≤ b ∧ b ≤ 126) →
      hex_to_string_go ((bs.map byteHex).flatten) =
        some (bs.map (fun b => Char.ofNat b)) := by
  intro bs
  induction bs with
  | nil => intro _; rfl
  | cons b rest ih =>
    intro hall
    have hb := hall b (List.mem_cons_self b rest)
    have hdiv : b / 16 < 16 := by omega
    have hmod : b % 16 < 16 := Nat.mod_lt _ (by norm_num)
    simp only [List.map_cons, List.flatten_cons]
    show hex_to_string_go (hexDigitChar (b / 16) :: hexDigitChar (b % 16) ::
      (rest.map byteHex).flatten) = _
    rw [hex_to_string_go_cons,
      pyIntHex_two_digits (hexVal_hexDigitChar _ hdiv)
        (hexVal_hexDigitChar _ hmod)]
    dsimp only
    have hbe : 16 * (b / 16) + b % 16 = b := by omega
    rw [hbe, if_pos ⟨by exact_mod_cast hb.1, by exact_mod_cast hb.2⟩,
      ih (fun x hx => hall x (List.mem_cons_of_mem _ hx))]
    simp

/-- C9: the printable rendering maps every byte between 0x20 and 0x7E to
its character and every other byte to a dot; and for a byte sequence of
printable bytes, rendering it to two-hex-digit text as the pipeline does
and converting that text back through hex_to_string reproduces exactly
the characters of the original bytes. -/
theorem C9_printable_roundtrip :
    (∀ b : Nat, (32 ≤ b ∧ b ≤ 126 → printableChar b = Char.ofNat b) ∧
      (¬(32 ≤ b ∧ b ≤ 126) → printableChar b = '.')) ∧
    (∀ bs : List Nat, (∀ b ∈ bs, 32 ≤ b ∧ b ≤ 126) →
      hex_to_string (hex_data_of bs) =
        some (String.mk (bs.map (fun b => Char.ofNat b)))) ∧
    (∀ bs : List Nat, (∀ b ∈ bs, 32 ≤ b ∧ b ≤ 126) →
      to_printable_ascii bs = String.mk (bs.map (fun b => Char.ofNat b))) := by
  refine ⟨?_, ?_, ?_⟩
  · intro b
    constructor
    · intro h
      unfold printableChar
      rw [if_pos h]
    · intro h
      unfold printableChar
      rw [if_neg h]
  · intro bs hall
    unfold hex_to_string hex_data_of
    show (hex_to_string_go ((bs.map byteHex).flatten)).map String.mk = _
    rw [hex_go_roundtrip bs hall]
    rfl
  · intro bs hall
    unfold to_printable_ascii
    congr 1
    refine List.map_congr_left (fun b hb => ?_)
    unfold printableChar
    rw [if_pos (hall b hb)]

/-- C9 witness: the theorem applied to the byte 65, the byte 10, and the
printable byte sequence of the text HELLO. -/
theorem C9_witness :
    printableChar 65 = Char.ofNat 65 ∧ printableChar 10 = '.' ∧
    hex_to_string (hex_data_of [72, 69, 76, 76, 79]) =
      some (String.mk ([72, 69, 76, 76, 79].map (fun b => Char.ofNat b))) ∧
    to_printable_ascii [72, 69, 76, 76, 79] =
      String.mk ([72, 69, 76, 76, 79].map (fun b => Char.ofNat b)) :=
  ⟨(C9_printable_roundtrip.1 65).1 (by decide),
   (C9_printable_roundtrip.1 10).2 (by decide),
   C9_printable_roundtrip.2.1 [72, 69, 76, 76, 79] (by decide),
   C9_printable_roundtrip.2.2 [72, 69, 76, 76, 79] (by decide)⟩

/-! Branch enumeration of get_ts_data over an arbitrary transport. -/

lemma shape_mf_fail (o : Oracle)
    (h1 : (mfResp o).sw1 ≠ 0x90 ∨ (mfResp o).sw2 ≠ 0x00) :
    get_ts_data o = (none, [(SELECT_MF, mfResp o)]) := by
  simp only [mfResp] at h1
  simp only [get_ts_data, send_apdu]
  dsimp only [List.map_cons, List.map_nil, List.nil_append,
    List.cons_append, List.append_nil]
  rw [if_pos h1]
  simp [mfResp]

lemma shape_df_fail (o : Oracle)
    (h1 : (mfResp o).sw1 = 0x90 ∧ (mfResp o).sw2 = 0x00)
    (h2 : (dfResp o).sw1 ≠ 0x90 ∨ (dfResp o).sw2 ≠ 0x00) :
    get_ts_data o =
      (none, [(SELECT_MF, mfResp o), (SELECT_DF1, dfResp o)]) := by
  simp only [mfResp] at h1
  simp only [dfResp] at h2
  simp only [get_ts_data, send_apdu]
  dsimp only [List.map_cons, List.map_nil, List.nil_append,
    List.cons_append, List.append_nil]
  rw [if_neg (by simp [h1.1, h1.2]), if_pos h2]
  simp [mfResp, dfResp]

lemma shape_ef_fail (o : Oracle)
    (h1 : (mfResp o).sw1 = 0x90 ∧ (mfResp o).sw2 = 0x00)
    (h2 : (dfResp o).sw1 = 0x90 ∧ (dfResp o).sw2 = 0x00)
    (h3 : (efResp o).sw1 ≠ 0x90 ∨ (efResp o).sw2 ≠ 0x00) :
    get_ts_data o =
      (none, [(SELECT_MF, mfResp o), (SELECT_DF1, dfResp o),
              (SELECT_EF_PERS, efResp o)]) := by
  simp only [mfResp] at h1
  simp only [dfResp] at h2
  simp only [efResp] at h3
  simp only [get_ts_data, send_apdu]
  dsimp only [List.map_cons, List.map_nil, List.nil_append,
    List.cons_append, List.append_nil]
  rw [if_neg (by simp [h1.1, h1.2]), if_neg (by simp [h2.1, h2.2]),
    if_pos h3]
  simp [mfResp, dfResp, efResp]

lemma shape_read_plain (o : Oracle)
    (h1 : (mfResp o).sw1 = 0x90 ∧ (mfResp o).sw2 = 0x00)
    (h2 : (dfResp o).sw1 = 0x90 ∧ (dfResp o).sw2 = 0x00)
    (h3 : (efResp o).sw1 = 0x90 ∧ (efResp o).sw2 = 0x00)
    (h4 : (rbResp o).sw1 ≠ 0x6C)
    (h5 : ¬((rbResp o).sw1 = 0x67 ∧ (rbResp o).sw2 = 0x00)) :
    get_ts_data o =
      (readResult (rbResp o),
       [(SELECT_MF, mfResp o), (SELECT_DF1, dfResp o),
        (SELECT_EF_PERS, efResp o), (READ_BIN, rbResp o)]) := by
  simp only [mfResp] at h1
  simp only [dfResp] at h2
  simp only [efResp] at h3
  simp only [rbResp] at h4 h5
  simp only [get_ts_data, send_apdu]
  dsimp only [List.map_cons, List.map_nil, List.nil_append,
    List.cons_append, List.append_nil]
  rw [if_neg (by simp [h1.1, h1.2]), if_neg (by simp [h2.1, h2.2]),
    if_neg (by simp [h3.1, h3.2]), if_neg h4, if_neg h5]
  by_cases hc : (respOf (o [SELECT_MF, SELECT_DF1, SELECT_EF_PERS]
      READ_BIN)).sw1 ≠ 0x90 ∨ (respOf (o [SELECT_MF, SELECT_DF1,
      SELECT_EF_PERS] READ_BIN)).sw2 ≠ 0x00
  · rw [if_pos hc]
    simp [readResult, rbResp, mfResp, dfResp, efResp, if_pos hc]
  · rw [if_neg hc]
    simp only [readResult, rbResp, mfResp, dfResp, efResp]
    rw [if_neg hc]

lemma shape_read_6C (o : Oracle)
    (h1 : (mfResp o).sw1 = 0x90 ∧ (mfResp o).sw2 = 0x00)
    (h2 : (dfResp o).sw1 = 0x90 ∧ (dfResp o).sw2 = 0x00)
    (h3 : (efResp o).sw1 = 0x90 ∧ (efResp o).sw2 = 0x00)
    (h4 : (rbResp o).sw1 = 0x6C)
    (h5 : ¬((rb6CResp o).sw1 = 0x67 ∧ (rb6CResp o).sw2 = 0x00)) :
    get_ts_data o =
      (readResult (rb6CResp o),
       [(SELECT_MF, mfResp o), (SELECT_DF1, dfResp o),
        (SELECT_EF_PERS, efResp o), (READ_BIN, rbResp o),
        (rb6CCmd o, rb6CResp o)]) := by
  simp only [mfResp] at h1
  simp only [dfResp] at h2
  simp only [efResp] at h3
  simp only [rbResp] at h4
  simp only [rb6CResp, rb6CCmd, rbResp] at h5
  simp only [get_ts_data, send_apdu]
  dsimp only [List.map_cons, List.map_nil, List.nil_append,
    List.cons_append, List.append_nil]
  rw [if_neg (by simp [h1.1, h1.2]), if_neg (by simp [h2.1, h2.2]),
    if_neg (by simp [h3.1, h3.2]), if_pos h4, if_neg h5]
  dsimp only [List.map_cons, List.map_nil, List.nil_append,
    List.cons_append, List.append_nil]
  by_cases hc : (respOf (o [SELECT_MF, SELECT_DF1, SELECT_EF_PERS, READ_BIN]
      [0x00, 0xB0, 0x00, 0x00, (respOf (o [SELECT_MF, SELECT_DF1,
        SELECT_EF_PERS] READ_BIN)).sw2])).sw1 ≠ 0x90 ∨
      (respOf (o [SELECT_MF, SELECT_DF1, SELECT_EF_PERS, READ_BIN]
      [0x00, 0xB0, 0x00, 0x00, (respOf (o [SELECT_MF, SELECT_DF1,
        SELECT_EF_PERS] READ_BIN)).sw2])).sw2 ≠ 0x00
  · rw [if_pos hc]
    simp [readResult, rb6CResp, rb6CCmd, rbResp, mfResp, dfResp, efResp,
      if_pos hc]
  · rw [if_neg hc]
    simp only [readResult, rb6CResp, rb6CCmd, rbResp, mfResp, dfResp, efResp]
    rw [if_neg hc]

lemma shape_read_6C_67 (o : Oracle)
    (h1 : (mfResp o).sw1 = 0x90 ∧ (mfResp o).sw2 = 0x00)
    (h2 : (dfResp o).sw1 = 0x90 ∧ (dfResp o).sw2 = 0x00)
    (h3 : (efResp o).sw1 = 0x90 ∧ (efResp o).sw2 = 0x00)
    (h4 : (rbResp o).sw1 = 0x6C)
    (h5 : (rb6CResp o).sw1 = 0x67 ∧ (rb6CResp o).sw2 = 0x00) :
    get_ts_data o =
      (readResult (rbFF5Resp o),
       [(SELECT_MF, mfResp o), (SELECT_DF1, dfResp o),
        (SELECT_EF_PERS, efResp o), (READ_BIN, rbResp o),
        (rb6CCmd o, rb6CResp o), (READ_BIN_FF, rbFF5Resp o)]) := by
  simp only [mfResp] at h1
  simp only [dfResp] at h2
  simp only [efResp] at h3
  simp only [rbResp] at h4
  simp only [rb6CResp, rb6CCmd, rbResp] at h5
  simp only [get_ts_data, send_apdu]
  dsimp only [List.map_cons, List.map_nil, List.nil_append,
    List.cons_append, List.append_nil]
  rw [if_neg (by simp [h1.1, h1.2]), if_neg (by simp [h2.1, h2.2]),
    if_neg (by simp [h3.1, h3.2]), if_pos h4, if_pos h5]
  dsimp only [List.map_cons, List.map_nil, List.nil_append,
    List.cons_append, List.append_nil]
  by_cases hc : (respOf (o [SELECT_MF, SELECT_DF1, SELECT_EF_PERS, READ_BIN,
      [0x00, 0xB0, 0x00, 0x00, (respOf (o [SELECT_MF, SELECT_DF1,
        SELECT_EF_PERS] READ_BIN)).sw2]] [0x00, 0xB0, 0x00, 0x00,
        0xFF])).sw1 ≠ 0x90 ∨
      (respOf (o [SELECT_MF, SELECT_DF1, SELECT_EF_PERS, READ_BIN,
      [0x00, 0xB0, 0x00, 0x00, (respOf (o [SELECT_MF, SELECT_DF1,
        SELECT_EF_PERS] READ_BIN)).sw2]] [0x00, 0xB0, 0x00, 0x00,
        0xFF])).sw2 ≠ 0x00
  · rw [if_pos hc]
    simp [readResult, rbFF5Resp, rb6CCmd, rbResp, mfResp, dfResp, efResp,
      READ_BIN_FF, rb6CResp, if_pos hc]
  · rw [if_neg hc]
    simp only [readResult, rbFF5Resp, rb6CCmd, rbResp, mfResp, dfResp,
      efResp, READ_BIN_FF, rb6CResp]
    rw [if_neg hc]

lemma shape_read_67 (o : Oracle)
    (h1 : (mfResp o).sw1 = 0x90 ∧ (mfResp o).sw2 = 0x00)
    (h2 : (dfResp o).sw1 = 0x90 ∧ (dfResp o).sw2 = 0x00)
    (h3 : (efResp o).sw1 = 0x90 ∧ (efResp o).sw2 = 0x00)
    (h4 : (rbResp o).sw1 ≠ 0x6C)
    (h5 : (rbResp o).sw1 = 0x67 ∧ (rbResp o).sw2 = 0x00) :
    get_ts_data o =
      (readResult (rbFF4Resp o),
       [(SELECT_MF, mfResp o), (SELECT_DF1, dfResp o),
        (SELECT_EF_PERS, efResp o), (READ_BIN, rbResp o),
        (READ_BIN_FF, rbFF4Resp o)]) := by
  simp only [mfResp] at h1
  simp only [dfResp] at h2
  simp only [efResp] at h3
  simp only [rbResp] at h4 h5
  simp only [get_ts_data, send_apdu]
  dsimp only [List.map_cons, List.map_nil, List.nil_append,
    List.cons_append, List.append_nil]
  rw [if_neg (by simp [h1.1, h1.2]), if_neg (by simp [h2.1, h2.2]),
    if_neg (by simp [h3.1, h3.2]), if_neg h4, if_pos h5]
  dsimp only [List.map_cons, List.map_nil, List.nil_append,
    List.cons_append, List.append_nil]
  by_cases hc : (respOf (o [SELECT_MF, SELECT_DF1, SELECT_EF_PERS, READ_BIN]
      [0x00, 0xB0, 0x00, 0x00, 0xFF])).sw1 ≠ 0x90 ∨
      (respOf (o [SELECT_MF, SELECT_DF1, SELECT_EF_PERS, READ_BIN]
      [0x00, 0xB0, 0x00, 0x00, 0xFF])).sw2 ≠ 0x00
  · rw [if_pos hc]
    simp [readResult, rbFF4Resp, rbResp, mfResp, dfResp, efResp,
      READ_BIN_FF, if_pos hc]
  · rw [if_neg hc]
    simp only [readResult, rbFF4Resp, rbResp, mfResp, dfResp, efResp,
      READ_BIN_FF]
    rw [if_neg hc]

/-- After three successful selects, the pipeline transmits between one
and three further commands, all READ BINARY forms, the first being the
plain READ BINARY. -/
lemma shape_read_general (o : Oracle)
    (h1 : (mfResp o).sw1 = 0x90 ∧ (mfResp o).sw2 = 0x00)
    (h2 : (dfResp o).sw1 = 0x90 ∧ (dfResp o).sw2 = 0x00)
    (h3 : (efResp o).sw1 = 0x90 ∧ (efResp o).sw2 = 0x00) :
    ∃ rds : List (Cmd × Resp), rds ≠ [] ∧ rds.length ≤ 3 ∧
      (get_ts_data o).2 =
        [(SELECT_MF, mfResp o), (SELECT_DF1, dfResp o),
         (SELECT_EF_PERS, efResp o)] ++ rds ∧
      (∀ e ∈ rds, e.1.take 2 = [0x00, 0xB0]) ∧
      rds[0]? = some (READ_BIN, rbResp o) := by
  by_cases h4 : (rbResp o).sw1 = 0x6C
  · by_cases h5 : (rb6CResp o).sw1 = 0x67 ∧ (rb6CResp o).sw2 = 0x00
    · refine ⟨[(READ_BIN, rbResp o), (rb6CCmd o, rb6CResp o),
        (READ_BIN_FF, rbFF5Resp o)], by simp, by simp,
        by rw [shape_read_6C_67 o h1 h2 h3 h4 h5]; rfl, ?_, by simp⟩
      intro e he
      simp only [List.mem_cons, List.not_mem_nil, or_false] at he
      rcases he with h | h | h <;> rw [h] <;> rfl
    · refine ⟨[(READ_BIN, rbResp o), (rb6CCmd o, rb6CResp o)], by simp,
        by simp, by rw [shape_read_6C o h1 h2 h3 h4 h5]; rfl, ?_, by simp⟩
      intro e he
      simp only [List.mem_cons, List.not_mem_nil, or_false] at he
      rcases he with h | h <;> rw [h] <;> rfl
  · by_cases h5 : (rbResp o).sw1 = 0x67 ∧ (rbResp o).sw2 = 0x00
    · refine ⟨[(READ_BIN, rbResp o), (READ_BIN_FF, rbFF4Resp o)], by simp,
        by simp, by rw [shape_read_67 o h1 h2 h3 h4 h5]; rfl, ?_, by simp⟩
      intro e he
      simp only [List.mem_cons, List.not_mem_nil, or_false] at he
      rcases he with h | h <;> rw [h] <;> rfl
    · refine ⟨[(READ_BIN, rbResp o)], by simp, by simp,
        by rw [shape_read_plain o h1 h2 h3 h4 h5]; rfl, ?_, by simp⟩
      intro e he
      simp only [List.mem_cons, List.not_mem_nil, or_false] at he
      rw [he]
      rfl

/-- C4: the pipeline issues the three SELECT commands in strict order at
trace positions zero, one and two; the Dedicated File SELECT is only ever
transmitted after the Master File SELECT was recorded with status 90 00,
the Elementary File SELECT only after the Dedicated File SELECT
succeeded, any fourth command only after the Elementary File SELECT
succeeded, and the first failing SELECT ends the trace at that step with
a null overall result, so no READ BINARY is ever issued after a SELECT
failure. -/
theorem C4_select_sequence :
    ∀ o : Oracle,
      ((get_ts_data o).2.map Prod.fst).take 3 =
        [SELECT_MF, SELECT_DF1, SELECT_EF_PERS].take
          (get_ts_data o).2.length ∧
      (∀ i e, (get_ts_data o).2[i]? = some e → e.1 = SELECT_DF1 →
        i = 1 ∧ (get_ts_data o).2[0]? = some (SELECT_MF, mfResp o) ∧
        (mfResp o).sw1 = 0x90 ∧ (mfResp o).sw2 = 0x00) ∧
      (∀ i e, (get_ts_data o).2[i]? = some e → e.1 = SELECT_EF_PERS →
        i = 2 ∧ (get_ts_data o).2[1]? = some (SELECT_DF1, dfResp o) ∧
        (dfResp o).sw1 = 0x90 ∧ (dfResp o).sw2 = 0x00) ∧
      (∀ i e, (get_ts_data o).2[i]? = some e → 3 ≤ i →
        (get_ts_data o).2[2]? = some (SELECT_EF_PERS, efResp o) ∧
        (efResp o).sw1 = 0x90 ∧ (efResp o).sw2 = 0x00) ∧
      (¬((mfResp o).sw1 = 0x90 ∧ (mfResp o).sw2 = 0x00) →
        (get_ts_data o).2.length = 1 ∧ (get_ts_data o).1 = none) ∧
      ((mfResp o).sw1 = 0x90 ∧ (mfResp o).sw2 = 0x00 →
        ¬((dfResp o).sw1 = 0x90 ∧ (dfResp o).sw2 = 0x00) →
        (get_ts_data o).2.length = 2 ∧ (get_ts_data o).1 = none) ∧
      ((mfResp o).sw1 = 0x90 ∧ (mfResp o).sw2 = 0x00 →
        (dfResp o).sw1 = 0x90 ∧ (dfResp o).sw2 = 0x00 →
        ¬((efResp o).sw1 = 0x90 ∧ (efResp o).sw2 = 0x00) →
        (get_ts_data o).2.length = 3 ∧ (get_ts_data o).1 = none) := by
  intro o
  by_cases h1 : (mfResp o).sw1 = 0x90 ∧ (mfResp o).sw2 = 0x00
  · by_cases h2 : (dfResp o).sw1 = 0x90 ∧ (dfResp o).sw2 = 0x00
    · by_cases h3 : (efResp o).sw1 = 0x90 ∧ (efResp o).sw2 = 0x00
      · obtain ⟨rds, hne, hlen, htr, hcmds, h0⟩ :=
          shape_read_general o h1 h2 h3
        rw [htr]
        simp only [List.cons_append, List.nil_append]
        refine ⟨?_, ?_, ?_, ?_, ?_, ?_, ?_⟩
        · simp only [List.map_cons, List.length_cons]
          rw [show ((SELECT_MF :: SELECT_DF1 :: SELECT_EF_PERS ::
            rds.map Prod.fst).take 3) = [SELECT_MF, SELECT_DF1,
            SELECT_EF_PERS] from rfl]
          rw [List.take_of_length_le (by simp)]
        · intro i e hi he
          rcases i with _ | _ | _ | i <;>
            simp only [List.getElem?_cons_zero,
              List.getElem?_cons_succ] at hi
          · rw [← Option.some.inj hi] at he
            dsimp only at he
            exact absurd he (by decide)
          · exact ⟨rfl, by simp, h1.1, h1.2⟩
          · rw [← Option.some.inj hi] at he
            dsimp only at he
            exact absurd he (by decide)
          · have hmem := hcmds e (List.getElem?_mem hi)
            rw [he] at hmem
            exact absurd hmem (by decide)
        · intro i e hi he
          rcases i with _ | _ | _ | i <;>
            simp only [List.getElem?_cons_zero,
              List.getElem?_cons_succ] at hi
          · rw [← Option.some.inj hi] at he
            dsimp only at he
            exact absurd he (by decide)
          · rw [← Option.some.inj hi] at he
            dsimp only at he
            exact absurd he (by decide)
          · exact ⟨rfl, by simp, h2.1, h2.2⟩
          · have hmem := hcmds e (List.getElem?_mem hi)
            rw [he] at hmem
            exact absurd hmem (by decide)
        · intro i e hi h3i
          exact ⟨by simp, h3.1, h3.2⟩
        · intro hm
          exact absurd h1 hm
        · intro _ hd
          exact absurd h2 hd
        · intro _ _ hef
          exact absurd h3 hef
      · rw [shape_ef_fail o h1 h2 (not_and_or.mp h3)]
        refine ⟨by simp, ?_, ?_, ?_, ?_, ?_, ?_⟩
        · intro i e hi he
          rcases i with _ | _ | _ | i <;>
            simp only [List.getElem?_cons_zero, List.getElem?_cons_succ,
              List.getElem?_nil] at hi
          · rw [← Option.some.inj hi] at he
            dsimp only at he
            exact absurd he (by decide)
          · exact ⟨rfl, by simp, h1.1, h1.2⟩
          · rw [← Option.some.inj hi] at he
            dsimp only at he
            exact absurd he (by decide)
          · exact absurd hi (by simp)
        · intro i e hi he
          rcases i with _ | _ | _ | i <;>
            simp only [List.getElem?_cons_zero, List.getElem?_cons_succ,
              List.getElem?_nil] at hi
          · rw [← Option.some.inj hi] at he
            dsimp only at he
            exact absurd he (by decide)
          · rw [← Option.some.inj hi] at he
            dsimp only at he
            exact absurd he (by decide)
          · exact ⟨rfl, by simp, h2.1, h2.2⟩
          · exact absurd hi (by simp)
        · intro i e hi h3i
          rcases i with _ | _ | _ | i <;>
            simp only [List.getElem?_cons_zero, List.getElem?_cons_succ,
              List.getElem?_nil] at hi
          · omega
          · omega
          · omega
          · exact absurd hi (by simp)
        · intro hm
          exact absurd h1 hm
        · intro _ hd
          exact absurd h2 hd
        · intro _ _ _
          exact ⟨rfl, rfl⟩
    · rw [shape_df_fail o h1 (not_and_or.mp h2)]
      refine ⟨by simp, ?_, ?_, ?_, ?_, ?_, ?_⟩
      · intro i e hi he
        rcases i with _ | _ | i <;>
          simp only [List.getElem?_cons_zero, List.getElem?_cons_succ,
            List.getElem?_nil] at hi
        · rw [← Option.some.inj hi] at he
          dsimp only at he
          exact absurd he (by decide)
        · exact ⟨rfl, by simp, h1.1, h1.2⟩
        · exact absurd hi (by simp)
      · intro i e hi he
        rcases i with _ | _ | i <;>
          simp only [List.getElem?_cons_zero, List.getElem?_cons_succ,
            List.getElem?_nil] at hi
        · rw [← Option.some.inj hi] at he
          dsimp only at he
          exact absurd he (by decide)
        · rw [← Option.some.inj hi] at he
          dsimp only at he
          exact absurd he (by decide)
        · exact absurd hi (by simp)
      · intro i e hi h3i
        rcases i with _ | _ | i <;>
          simp only [List.getElem?_cons_zero, List.getElem?_cons_succ,
            List.getElem?_nil] at hi
        · omega
        · omega
        · exact absurd hi (by simp)
      · intro hm
        exact absurd h1 hm
      · intro _ _
        exact ⟨rfl, rfl⟩
      · intro _ hd _
        exact absurd hd h2
  · rw [shape_mf_fail o (not_and_or.mp h1)]
    refine ⟨by simp, ?_, ?_, ?_, ?_, ?_, ?_⟩
    · intro i e hi he
      rcases i with _ | i <;>
        simp only [List.getElem?_cons_zero, List.getElem?_cons_succ,
          List.getElem?_nil] at hi
      · rw [← Option.some.inj hi] at he
        dsimp only at he
        exact absurd he (by decide)
      · exact absurd hi (by simp)
    · intro i e hi he
      rcases i with _ | i <;>
        simp only [List.getElem?_cons_zero, List.getElem?_cons_succ,
          List.getElem?_nil] at hi
      · rw [← Option.some.inj hi] at he
        dsimp only at he
        exact absurd he (by decide)
      · exact absurd hi (by simp)
    · intro i e hi h3i
      rcases i with _ | i <;>
        simp only [List.getElem?_cons_zero, List.getElem?_cons_succ,
          List.getElem?_nil] at hi
      · omega
      · exact absurd hi (by simp)
    · intro _
      exact ⟨rfl, rfl⟩
    · intro hm _
      exact absurd hm h1
    · intro hm _ _
      exact absurd hm h1

/-- C4 witness: the theorem applied to a transport whose Master File
SELECT fails with status 6A 82, showing the one-command trace and null
result. -/
theorem C4_witness :
    (get_ts_data oracleMFfail).2.length = 1 ∧
    (get_ts_data oracleMFfail).1 = none :=
  (C4_select_sequence oracleMFfail).2.2.2.2.1 (by decide)

/-- C5: when the transport raises on a transmit, send_apdu swallows the
fault and returns the sentinel response of empty payload and zero status
bytes, which fails the 90 00 success check; consequently a fault on the
READ BINARY step after three successful selects yields the null pipeline
result, and a fault on the first SELECT ends the pipeline at that step
with the null result. -/
theorem C5_transport_sentinel :
    (∀ (oracle : Oracle) (tr : Trace) (apdu : Cmd),
      oracle (tr.map Prod.fst) apdu = .fault →
      (send_apdu oracle tr apdu).1 = ⟨[], 0, 0⟩ ∧
      ¬((send_apdu oracle tr apdu).1.sw1 = 0x90 ∧
        (send_apdu oracle tr apdu).1.sw2 = 0x00)) ∧
    (∀ (oracle : Oracle) (p1 p2 p3 : List Nat),
      oracle [] SELECT_MF = .ok p1 0x90 0x00 →
      oracle [SELECT_MF] SELECT_DF1 = .ok p2 0x90 0x00 →
      oracle [SELECT_MF, SELECT_DF1] SELECT_EF_PERS = .ok p3 0x90 0x00 →
      oracle [SELECT_MF, SELECT_DF1, SELECT_EF_PERS] READ_BIN = .fault →
      get_ts_data oracle =
        (none,
         [(SELECT_MF, ⟨p1, 0x90, 0x00⟩), (SELECT_DF1, ⟨p2, 0x90, 0x00⟩),
          (SELECT_EF_PERS, ⟨p3, 0x90, 0x00⟩), (READ_BIN, ⟨[], 0, 0⟩)])) ∧
    (∀ oracle : Oracle, (∀ h c, oracle h c = .fault) →
      get_ts_data oracle = (none, [(SELECT_MF, ⟨[], 0, 0⟩)])) := by
  refine ⟨?_, ?_, ?_⟩
  · intro o tr apdu hf
    simp only [send_apdu]
    rw [hf]
    exact ⟨rfl, by decide⟩
  · intro o p1 p2 p3 e1 e2 e3 e4
    have hm : mfResp o = ⟨p1, 0x90, 0x00⟩ := by
      unfold mfResp
      rw [e1]
      rfl
    have hd : dfResp o = ⟨p2, 0x90, 0x00⟩ := by
      unfold dfResp
      rw [e2]
      rfl
    have he : efResp o = ⟨p3, 0x90, 0x00⟩ := by
      unfold efResp
      rw [e3]
      rfl
    have hr : rbResp o = ⟨[], 0, 0⟩ := by
      unfold rbResp
      rw [e4]
      rfl
    rw [shape_read_plain o (by rw [hm]; exact ⟨rfl, rfl⟩)
      (by rw [hd]; exact ⟨rfl, rfl⟩) (by rw [he]; exact ⟨rfl, rfl⟩)
      (by rw [hr]; decide) (by rw [hr]; decide)]
    rw [hm, hd, he, hr]
    rfl
  · intro o hall
    have hm : mfResp o = ⟨[], 0, 0⟩ := by
      unfold mfResp
      rw [hall [] SELECT_MF]
      rfl
    rw [shape_mf_fail o (by rw [hm]; left; decide), hm]

/-- C5 witness: the theorem applied to the always-faulting transport. -/
theorem C5_witness :
    ((send_apdu oracleFault [] SELECT_MF).1 = ⟨[], 0, 0⟩ ∧
     ¬((send_apdu oracleFault [] SELECT_MF).1.sw1 = 0x90 ∧
       (send_apdu oracleFault [] SELECT_MF).1.sw2 = 0x00)) ∧
    get_ts_data oracleFault = (none, [(SELECT_MF, ⟨[], 0, 0⟩)]) :=
  ⟨C5_transport_sentinel.1 oracleFault [] SELECT_MF rfl,
   C5_transport_sentinel.2.2 oracleFault (fun _ _ => rfl)⟩

/-- C1 (amended): the Reader issues at most three READ BINARY commands,
the initial attempt plus at most two retries; when the initial attempt
returns status 6C n the fifth transmitted command is the corrected-length
retry with requested length n; and a sixth command is transmitted exactly
when that corrected retry itself returns status 67 00, in which case it
is the fixed fallback retry with length FF — so a retry outcome of 67 00
does trigger one further retry, contrary to the claim as stated. -/
theorem C1_retry_policy :
    ∀ o : Oracle,
      (get_ts_data o).2.length ≤ 6 ∧
      (∀ e4 e5, (get_ts_data o).2[3]? = some e4 →
        (get_ts_data o).2[4]? = some e5 →
        (e4.2.sw1 = 0x6C ∧ e5.1 = [0x00, 0xB0, 0x00, 0x00, e4.2.sw2]) ∨
        (e4.2.sw1 ≠ 0x6C ∧ e4.2.sw1 = 0x67 ∧ e4.2.sw2 = 0x00 ∧
         e5.1 = [0x00, 0xB0, 0x00, 0x00, 0xFF])) ∧
      (∀ e4 e5 e6, (get_ts_data o).2[3]? = some e4 →
        (get_ts_data o).2[4]? = some e5 →
        (get_ts_data o).2[5]? = some e6 →
        e4.2.sw1 = 0x6C ∧ e5.2.sw1 = 0x67 ∧ e5.2.sw2 = 0x00 ∧
        e6.1 = [0x00, 0xB0, 0x00, 0x00, 0xFF]) := by
  intro o
  by_cases h1 : (mfResp o).sw1 = 0x90 ∧ (mfResp o).sw2 = 0x00
  · by_cases h2 : (dfResp o).sw1 = 0x90 ∧ (dfResp o).sw2 = 0x00
    · by_cases h3 : (efResp o).sw1 = 0x90 ∧ (efResp o).sw2 = 0x00
      · by_cases h4 : (rbResp o).sw1 = 0x6C
        · by_cases h5 : (rb6CResp o).sw1 = 0x67 ∧ (rb6CResp o).sw2 = 0x00
          · rw [shape_read_6C_67 o h1 h2 h3 h4 h5]
            refine ⟨by simp, ?_, ?_⟩
            · intro e4 e5 h4e h5e
              simp only [List.getElem?_cons_succ,
                List.getElem?_cons_zero] at h4e h5e
              rw [← Option.some.inj h4e, ← Option.some.inj h5e]
              exact Or.inl ⟨h4, rfl⟩
            · intro e4 e5 e6 h4e h5e h6e
              simp only [List.getElem?_cons_succ,
                List.getElem?_cons_zero] at h4e h5e h6e
              rw [← Option.some.inj h4e, ← Option.some.inj h5e,
                ← Option.some.inj h6e]
              exact ⟨h4, h5.1, h5.2, rfl⟩
          · rw [shape_read_6C o h1 h2 h3 h4 h5]
            refine ⟨by simp, ?_, ?_⟩
            · intro e4 e5 h4e h5e
              simp only [List.getElem?_cons_succ,
                List.getElem?_cons_zero] at h4e h5e
              rw [← Option.some.inj h4e, ← Option.some.inj h5e]
              exact Or.inl ⟨h4, rfl⟩
            · intro e4 e5 e6 h4e h5e h6e
              simp only [List.getElem?_cons_succ, List.getElem?_cons_zero,
                List.getElem?_nil] at h6e
              exact absurd h6e (by simp)
        · by_cases h5 : (rbResp o).sw1 = 0x67 ∧ (rbResp o).sw2 = 0x00
          · rw [shape_read_67 o h1 h2 h3 h4 h5]
            refine ⟨by simp, ?_, ?_⟩
            · intro e4 e5 h4e h5e
              simp only [List.getElem?_cons_succ,
                List.getElem?_cons_zero] at h4e h5e
              rw [← Option.some.inj h4e, ← Option.some.inj h5e]
              exact Or.inr ⟨h4, h5.1, h5.2, rfl⟩
            · intro e4 e5 e6 h4e h5e h6e
              simp only [List.getElem?_cons_succ, List.getElem?_cons_zero,
                List.getElem?_nil] at h6e
              exact absurd h6e (by simp)
          · rw [shape_read_plain o h1 h2 h3 h4 h5]
            refine ⟨by simp, ?_, ?_⟩
            · intro e4 e5 h4e h5e
              simp only [List.getElem?_cons_succ, List.getElem?_cons_zero,
                List.getElem?_nil] at h5e
              exact absurd h5e (by simp)
            · intro e4 e5 e6 h4e h5e h6e
              simp only [List.getElem?_cons_succ, List.getElem?_cons_zero,
                List.getElem?_nil] at h6e
              exact absurd h6e (by simp)
      · rw [shape_ef_fail o h1 h2 (not_and_or.mp h3)]
        refine ⟨by simp, ?_, ?_⟩
        · intro e4 e5 h4e h5e
          simp only [List.getElem?_cons_succ, List.getElem?_cons_zero,
            List.getElem?_nil] at h4e
          exact absurd h4e (by simp)
        · intro e4 e5 e6 h4e h5e h6e
          simp only [List.getElem?_cons_succ, List.getElem?_cons_zero,
            List.getElem?_nil] at h4e
          exact absurd h4e (by simp)
    · rw [shape_df_fail o h1 (not_and_or.mp h2)]
      refine ⟨by simp, ?_, ?_⟩
      · intro e4 e5 h4e h5e
        simp only [List.getElem?_cons_succ, List.getElem?_cons_zero,
          List.getElem?_nil] at h4e
        exact absurd h4e (by simp)
      · intro e4 e5 e6 h4e h5e h6e
        simp only [List.getElem?_cons_succ, List.getElem?_cons_zero,
          List.getElem?_nil] at h4e
        exact absurd h4e (by simp)
  · rw [shape_mf_fail o (not_and_or.mp h1)]
    refine ⟨by simp, ?_, ?_⟩
    · intro e4 e5 h4e h5e
      simp only [List.getElem?_cons_succ, List.getElem?_cons_zero,
        List.getElem?_nil] at h4e
      exact absurd h4e (by simp)
    · intro e4 e5 e6 h4e h5e h6e
      simp only [List.getElem?_cons_succ, List.getElem?_cons_zero,
        List.getElem?_nil] at h4e
      exact absurd h4e (by simp)

/-- C1 counterexample to the claim as stated: against a transport whose
initial READ BINARY answers 6C 10 and whose corrected-length retry
answers 67 00, the pipeline transmits six commands, the last three being
READ BINARY forms — the corrected retry is followed by a further FF
retry, so more than one retry is issued after the initial attempt. -/
theorem C1_counterexample :
    ((get_ts_data c1oracle).2.map Prod.fst) =
      [[0x00, 0xA4, 0x00, 0x00, 0x02, 0x3F, 0x00],
       [0x00, 0xA4, 0x00, 0x00, 0x02, 0x11, 0x00],
       [0x00, 0xA4, 0x00, 0x00, 0x02, 0x11, 0x02],
       [0x00, 0xB0, 0x00, 0x00, 0x00],
       [0x00, 0xB0, 0x00, 0x00, 0x10],
       [0x00, 0xB0, 0x00, 0x00, 0xFF]] ∧
    ((get_ts_data c1oracle).2.map (fun e => (e.2.sw1, e.2.sw2))) =
      [(0x90, 0x00), (0x90, 0x00), (0x90, 0x00), (0x6C, 0x10),
       (0x67, 0x00), (0x90, 0x00)] :=
  ⟨by decide, by decide⟩

/-- C1 witness: the amended theorem applied to the transport of the
counterexample trace. -/
theorem C1_witness :
    (get_ts_data c1oracle).2.length ≤ 6 ∧
    (((READ_BIN, (⟨[], 0x6C, 0x10⟩ : Resp)) : Cmd × Resp).2.sw1 = 0x6C ∧
     ((([0x00, 0xB0, 0x00, 0x00, 0x10], (⟨[], 0x67, 0x00⟩ : Resp)) :
        Cmd × Resp)).2.sw1 = 0x67 ∧
     ((([0x00, 0xB0, 0x00, 0x00, 0x10], (⟨[], 0x67, 0x00⟩ : Resp)) :
        Cmd × Resp)).2.sw2 = 0x00 ∧
     ((([0x00, 0xB0, 0x00, 0x00, 0xFF], (⟨[0x41], 0x90, 0x00⟩ : Resp)) :
        Cmd × Resp)).1 = [0x00, 0xB0, 0x00, 0x00, 0xFF]) :=
  ⟨(C1_retry_policy c1oracle).1,
   (C1_retry_policy c1oracle).2.2 (READ_BIN, ⟨[], 0x6C, 0x10⟩)
     ([0x00, 0xB0, 0x00, 0x00, 0x10], ⟨[], 0x67, 0x00⟩)
     ([0x00, 0xB0, 0x00, 0x00, 0xFF], ⟨[0x41], 0x90, 0x00⟩)
     (by decide) (by decide) (by decide)⟩

/-- C8: the transmitted commands are byte-exact: the first four commands
of any trace are a prefix of the canonical SELECT Master File, SELECT
Dedicated File, SELECT Elementary File and initial READ BINARY byte
sequences; a fifth command is either the corrected-length retry whose
last byte is the second status byte of the 6C response recorded at the
fourth step, or the FF fallback retry; and a sixth command is always the
FF fallback retry. -/
theorem C8_command_bytes :
    ∀ o : Oracle,
      ((get_ts_data o).2.map Prod.fst).take 4 =
        [[0x00, 0xA4, 0x00, 0x00, 0x02, 0x3F, 0x00],
         [0x00, 0xA4, 0x00, 0x00, 0x02, 0x11, 0x00],
         [0x00, 0xA4, 0x00, 0x00, 0x02, 0x11, 0x02],
         [0x00, 0xB0, 0x00, 0x00, 0x00]].take (get_ts_data o).2.length ∧
      (∀ e4 e5, (get_ts_data o).2[3]? = some e4 →
        (get_ts_data o).2[4]? = some e5 →
        (e4.2.sw1 = 0x6C ∧ e5.1 = [0x00, 0xB0, 0x00, 0x00, e4.2.sw2]) ∨
        (e4.2.sw1 ≠ 0x6C ∧ e5.1 = [0x00, 0xB0, 0x00, 0x00, 0xFF])) ∧
      (∀ e6, (get_ts_data o).2[5]? = some e6 →
        e6.1 = [0x00, 0xB0, 0x00, 0x00, 0xFF]) := by
  intro o
  by_cases h1 : (mfResp o).sw1 = 0x90 ∧ (mfResp o).sw2 = 0x00
  · by_cases h2 : (dfResp o).sw1 = 0x90 ∧ (dfResp o).sw2 = 0x00
    · by_cases h3 : (efResp o).sw1 = 0x90 ∧ (efResp o).sw2 = 0x00
      · by_cases h4 : (rbResp o).sw1 = 0x6C
        · by_cases h5 : (rb6CResp o).sw1 = 0x67 ∧ (rb6CResp o).sw2 = 0x00
          · rw [shape_read_6C_67 o h1 h2 h3 h4 h5]
            refine ⟨rfl, ?_, ?_⟩
            · intro e4 e5 h4e h5e
              simp only [List.getElem?_cons_succ,
                List.getElem?_cons_zero] at h4e h5e
              rw [← Option.some.inj h4e, ← Option.some.inj h5e]
              exact Or.inl ⟨h4, rfl⟩
            · intro e6 h6e
              simp only [List.getElem?_cons_succ,
                List.getElem?_cons_zero] at h6e
              rw [← Option.some.inj h6e]
              rfl
          · rw [shape_read_6C o h1 h2 h3 h4 h5]
            refine ⟨rfl, ?_, ?_⟩
            · intro e4 e5 h4e h5e
              simp only [List.getElem?_cons_succ,
                List.getElem?_cons_zero] at h4e h5e
              rw [← Option.some.inj h4e, ← Option.some.inj h5e]
              exact Or.inl ⟨h4, rfl⟩
            · intro e6 h6e
              simp only [List.getElem?_cons_succ, List.getElem?_cons_zero,
                List.getElem?_nil] at h6e
              exact absurd h6e (by simp)
        · by_cases h5 : (rbResp o).sw1 = 0x67 ∧ (rbResp o).sw2 = 0x00
          · rw [shape_read_67 o h1 h2 h3 h4 h5]
            refine ⟨rfl, ?_, ?_⟩
            · intro e4 e5 h4e h5e
              simp only [List.getElem?_cons_succ,
                List.getElem?_cons_zero] at h4e h5e
              rw [← Option.some.inj h4e, ← Option.some.inj h5e]
              exact Or.inr ⟨h4, rfl⟩
            · intro e6 h6e
              simp only [List.getElem?_cons_succ, List.getElem?_cons_zero,
                List.getElem?_nil] at h6e
              exact absurd h6e (by simp)
          · rw [shape_read_plain o h1 h2 h3 h4 h5]
            refine ⟨rfl, ?_, ?_⟩
            · intro e4 e5 h4e h5e
              simp only [List.getElem?_cons_succ, List.getElem?_cons_zero,
                List.getElem?_nil] at h5e
              exact absurd h5e (by simp)
            · intro e6 h6e
              simp only [List.getElem?_cons_succ, List.getElem?_cons_zero,
                List.getElem?_nil] at h6e
              exact absurd h6e (by simp)
      · rw [shape_ef_fail o h1 h2 (not_and_or.mp h3)]
        refine ⟨rfl, ?_, ?_⟩
        · intro e4 e5 h4e h5e
          simp only [List.getElem?_cons_succ, List.getElem?_cons_zero,
            List.getElem?_nil] at h4e
          exact absurd h4e (by simp)
        · intro e6 h6e
          simp only [List.getElem?_cons_succ, List.getElem?_cons_zero,
            List.getElem?_nil] at h6e
          exact absurd h6e (by simp)
    · rw [shape_df_fail o h1 (not_and_or.mp h2)]
      refine ⟨rfl, ?_, ?_⟩
      · intro e4 e5 h4e h5e
        simp only [List.getElem?_cons_succ, List.getElem?_cons_zero,
          List.getElem?_nil] at h4e
        exact absurd h4e (by simp)
      · intro e6 h6e
        simp only [List.getElem?_cons_succ, List.getElem?_cons_zero,
          List.getElem?_nil] at h6e
        exact absurd h6e (by simp)
  · rw [shape_mf_fail o (not_and_or.mp h1)]
    refine ⟨rfl, ?_, ?_⟩
    · intro e4 e5 h4e h5e
      simp only [List.getElem?_cons_succ, List.getElem?_cons_zero,
        List.getElem?_nil] at h4e
      exact absurd h4e (by simp)
    · intro e6 h6e
      simp only [List.getElem?_cons_succ, List.getElem?_cons_zero,
        List.getElem?_nil] at h6e
      exact absurd h6e (by simp)

/-- C8 witness: the theorem applied to the transport whose trace realises
all six command forms. -/
theorem C8_witness :
    ((get_ts_data c1oracle).2.map Prod.fst).take 4 =
      [[0x00, 0xA4, 0x00, 0x00, 0x02, 0x3F, 0x00],
       [0x00, 0xA4, 0x00, 0x00, 0x02, 0x11, 0x00],
       [0x00, 0xA4, 0x00, 0x00, 0x02, 0x11, 0x02],
       [0x00, 0xB0, 0x00, 0x00, 0x00]].take
        (get_ts_data c1oracle).2.length ∧
    ((([0x00, 0xB0, 0x00, 0x00, 0xFF], (⟨[0x41], 0x90, 0x00⟩ : Resp)) :
      Cmd × Resp)).1 = [0x00, 0xB0, 0x00, 0x00, 0xFF] :=
  ⟨(C8_command_bytes c1oracle).1,
   (C8_command_bytes c1oracle).2.2
     ([0x00, 0xB0, 0x00, 0x00, 0xFF], ⟨[0x41], 0x90, 0x00⟩) (by decide)⟩

end TsCns
